import Mathlib

/-!
Shallow embedding of `src/server.js` (the final version of the file: the
"make an offer" service with discount provisioning and draft-order
bundling).  Pure fragments of the JavaScript are translated to Lean
functions; the SQLite store becomes an explicit `Store` value; outbound
Shopify / SMTP calls become parameters describing the collaborator's
response, and every outbound request is recorded in a trace so that
theorems can speak about which calls were made.  JavaScript numbers are
modelled exactly: integer quantities as `Nat`/`Int`, and the one place
where IEEE-754 doubles matter (`Math.round(parseFloat(o.offer) * 100)`)
by an exact dyadic model of binary64 rounding.
-/

namespace MakeOffer

/-- `String.prototype.toLowerCase` (ASCII-level model). -/
def lowerStr (s : String) : String := ⟨s.data.map Char.toLower⟩

/-- `String.prototype.trim`: strip whitespace from both ends. -/
def trimStr (s : String) : String :=
  ⟨((s.data.dropWhile Char.isWhitespace).reverse.dropWhile Char.isWhitespace).reverse⟩

/-- `String.prototype.endsWith`. -/
def endsWithStr (s suf : String) : Bool :=
  List.isPrefixOf suf.data.reverse s.data.reverse

/-- `String.prototype.slice(0, n)`. -/
def sliceStr (s : String) (n : Nat) : String := ⟨s.data.take n⟩

/-- JavaScript truthiness of a nullable string column: `null`, `undefined`
and `""` are falsy. -/
def jsTruthyStr : Option String → Bool
  | none => false
  | some s => !(s == "")

/-- JavaScript truthiness of the result of `getNumericId`: `NaN` (here
`none`) and `0` are falsy. -/
def jsTruthyNum : Option Nat → Bool
  | none => false
  | some n => !(n == 0)

/-- Fuel-driven binary logarithm on `Nat` (kernel-reducible). -/
def natLog2Go (fuel n : Nat) : Nat :=
  match fuel with
  | 0 => 0
  | f + 1 => if n ≤ 1 then 0 else 1 + natLog2Go f (n / 2)

/-- `⌊log₂ n⌋` for `n ≥ 1` (and `0` for `n ≤ 1`). -/
def natLog2 (n : Nat) : Nat := natLog2Go n n

/-- Does `2^k ≤ a / b` hold (for `a b : Nat`, `b ≥ 1`)? -/
def pow2LeFrac (k : Int) (a b : Nat) : Bool :=
  if 0 ≤ k then 2 ^ k.toNat * b ≤ a else b ≤ a * 2 ^ (-k).toNat

/-- `⌊log₂ (a/b)⌋` for `a, b ≥ 1`, via a candidate from `natLog2`
corrected by exact comparisons. -/
def floorLog2Frac (a b : Nat) : Int :=
  let k0 : Int := (natLog2 a : Int) - (natLog2 b : Int)
  if pow2LeFrac (k0 + 1) a b then k0 + 1
  else if pow2LeFrac k0 a b then k0
  else k0 - 1

/-- Round `N / D` (with `D ≥ 1`) to the nearest integer, ties to even —
the IEEE-754 rounding used when a real is rounded to a double. -/
def halfEvenDiv (N D : Nat) : Nat :=
  let q := N / D
  let r := N % D
  if 2 * r < D then q
  else if 2 * r > D then q + 1
  else if q % 2 = 0 then q else q + 1

/-- A nonnegative binary64 value, exactly: `m * 2 ^ e`. -/
structure Dbl where
  m : Nat
  e : Int
deriving DecidableEq

/-- The binary64 double nearest to the nonnegative rational `a / b`
(`b ≥ 1`): round the 53-bit significand half-to-even.  Our inputs are
well inside the normal range, so overflow/subnormals need no model. -/
def dblOfFrac (a b : Nat) : Dbl :=
  if a = 0 then ⟨0, 0⟩
  else
    let k := floorLog2Frac a b
    let e := k - 52
    let m := if e ≤ 0 then halfEvenDiv (a * 2 ^ (-e).toNat) b
             else halfEvenDiv a (b * 2 ^ e.toNat)
    ⟨m, e⟩

/-- IEEE-754 multiplication of a double by the (exactly representable)
constant `100`: the exact product re-rounded to the nearest double. -/
def dblMul100 (x : Dbl) : Dbl :=
  if x.m = 0 then ⟨0, 0⟩
  else
    let a := 100 * x.m
    if x.e ≤ 0 then dblOfFrac a (2 ^ (-x.e).toNat) else dblOfFrac (a * 2 ^ x.e.toNat) 1

/-- `Math.round` on a nonnegative double: nearest integer, ties toward
`+∞`, i.e. `⌊x + 1/2⌋` on the exact value. -/
def jsMathRoundDbl (x : Dbl) : Nat :=
  if 0 ≤ x.e then x.m * 2 ^ x.e.toNat
  else
    let p := (-x.e).toNat
    (2 * x.m + 2 ^ p) / 2 ^ (p + 1)

/-- `Math.max(0, Math.round(parseFloat(s) * 100))` for a nonnegative
decimal input `a / 10 ^ d` — the exact JavaScript float pipeline of
`POST /api/offer`. -/
def jsOfferCentsFrac (a d : Nat) : Nat :=
  jsMathRoundDbl (dblMul100 (dblOfFrac a (10 ^ d)))

/-- A parsed decimal offer amount: sign and `a / 10 ^ d`. -/
structure OfferDec where
  neg : Bool
  a : Nat
  d : Nat
deriving DecidableEq

/-- Offer cents from the parsed request field.  `none` stands for a
missing or unparseable (`NaN`) amount; a negative amount always rounds
to a nonpositive value, so `Math.max(0, ·)` yields `0` for it. -/
def jsOfferCentsOpt : Option OfferDec → Nat
  | none => 0
  | some q => if q.neg then 0 else jsOfferCentsFrac q.a q.d

/-- The conversion the spec describes: round the decimal amount, times
100, half away from zero (for nonnegative inputs: `⌊100·q + 1/2⌋`).
Stated from the spec's words, to be compared with `jsOfferCentsFrac`. -/
def specRoundHalfAwayCents (a d : Nat) : Nat :=
  (2 * (100 * a) + 10 ^ d) / (2 * 10 ^ d)

/-- `(cents / 100).toFixed(2)`: exact two-decimal rendering of a cent
amount. -/
def fmtCents (c : Nat) : String :=
  toString (c / 100) ++ "." ++ (if c % 100 < 10 then "0" else "") ++ toString (c % 100)

/-- `getNumericId`: the digits matched by `/\d+$/`, as a number; `none`
models `NaN` (no trailing digits). -/
def getNumericId (s : String) : Option Nat :=
  let ds := (s.data.reverse.takeWhile Char.isDigit).reverse
  if ds.isEmpty then none
  else some (ds.foldl (fun a c => 10 * a + (c.toNat - 48)) 0)

/-- `toGID`. -/
def toGID (t : String) (id : Nat) : String :=
  "gid://shopify/" ++ t ++ "/" ++ toString id

/-- One row of the `offers` table (final schema). -/
structure Offer where
  id : Nat
  created_at : Nat
  shop_domain : String
  product_id : String
  product_handle : String
  product_title : String
  variant_id : String
  variant_title : String
  currency : String
  price_cents : Nat
  offer_cents : Nat
  email : String
  email_norm : String
  note : String
  status : String
  discount_code : Option String
  price_rule_id : Option String
  discount_expires_at : Option Nat
  draft_order_id : Option String
  drafted_at : Option Nat
  ip : String
  ua : String
deriving DecidableEq

/-- The SQLite database: the `offers` rows in insertion order plus the
next `AUTOINCREMENT` id. -/
structure Store where
  offers : List Offer
  nextId : Nat
deriving DecidableEq

/-- `SELECT * FROM offers WHERE id=?` (`db.get`). -/
def findOffer (store : Store) (id : Nat) : Option Offer :=
  store.offers.find? (fun o => o.id == id)

/-- `UPDATE offers SET status=? WHERE id=?`. -/
def updateStatusIn (store : Store) (id : Nat) (val : String) : Store :=
  { store with offers := store.offers.map (fun o =>
      if o.id = id then { o with status := val } else o) }

/-- `UPDATE offers SET discount_code=?, price_rule_id=?,
discount_expires_at=? WHERE id=?`. -/
def applyDiscountFields (store : Store) (id : Nat) (code ruleId : String)
    (endsAt : Nat) : Store :=
  { store with offers := store.offers.map (fun o =>
      if o.id = id then
        { o with discount_code := some code, price_rule_id := some ruleId,
                 discount_expires_at := some endsAt }
      else o) }

/-- Split a character list at `'@'`. -/
def splitOnAt : List Char → List (List Char)
  | [] => [[]]
  | c :: cs =>
    let r := splitOnAt cs
    if c = '@' then [] :: r
    else
      match r with
      | [] => [[c]]
      | h :: t => (c :: h) :: t

/-- The email regex `/^[^\s@]+@[^\s@]+\.[^\s@]{2,}$/`: exactly one `@`;
a nonempty local part without whitespace; a domain without whitespace
containing a dot preceded by at least one character and followed by at
least two. -/
def emailOk (s : String) : Bool :=
  match splitOnAt s.data with
  | [a, b] =>
    (!a.isEmpty && a.all (fun c => !c.isWhitespace)) &&
    (b.all (fun c => !c.isWhitespace) &&
      (List.range b.length).any (fun i =>
        b.get? i == some '.' && decide (1 ≤ i) && decide (i + 3 ≤ b.length)))
  | _ => false

/-- The body of `POST /api/offer` after Express parsing, with the
`String(o.x || "")` / `parseInt` coercions already applied (missing
fields are `""` / `0`); `offer` is the `parseFloat(o.offer || 0)` result
(`none` = missing or `NaN`).  `lang` is carried to model a request field
the handler never reads. -/
structure OfferInput where
  origin : String
  shop_domain : String
  product_id : String
  product_handle : String
  product_title : String
  variant_id : String
  variant_title : String
  currency : String
  price_cents : Nat
  offer : Option OfferDec
  email : String
  note : String
  lang : String
  ip : String
  ua : String
deriving DecidableEq

/-- Outcome of `POST /api/offer` (per response branch of the source). -/
inductive SubmitResp
  | forbiddenOrigin
  | invalidEmail
  | missingIdents
  | offerRequired
  | duplicate
  | created (id : Nat)
deriving DecidableEq

/-- The row object built by the handler before `INSERT` (with the store
supplying `id`, `created_at = now` and the defaulted columns). -/
def mkRow (now nid : Nat) (i : OfferInput) : Offer :=
  let email := trimStr i.email
  { id := nid
    created_at := now
    shop_domain := i.shop_domain
    product_id := i.product_id
    product_handle := i.product_handle
    product_title := i.product_title
    variant_id := i.variant_id
    variant_title := i.variant_title
    currency := if i.currency = "" then "GBP" else i.currency
    price_cents := i.price_cents
    offer_cents := jsOfferCentsOpt i.offer
    email := email
    email_norm := lowerStr email
    note := sliceStr i.note 2000
    status := "open"
    discount_code := none
    price_rule_id := none
    discount_expires_at := none
    draft_order_id := none
    drafted_at := none
    ip := i.ip
    ua := i.ua }

/-- The dedupe `SELECT`: an open offer with this normalized email and
variant id whose `created_at` is within the store-side last 24 hours. -/
def dupMatch (now : Nat) (em vn : String) (o : Offer) : Bool :=
  decide (o.email_norm = em ∧ o.variant_id = vn ∧ o.status = "open" ∧
    now ≤ o.created_at + 86400)

/-- `POST /api/offer`: origin gate, email syntax, identifier presence,
amount parsing, the 24-hour dedupe check, then `INSERT`.  The mail side
effects after the insert do not touch the store or the response and are
not traced here. -/
def submitOffer (allow : List String) (now : Nat) (store : Store)
    (i : OfferInput) : SubmitResp × Store :=
  if allow ≠ [] ∧ ¬ i.origin ∈ allow then (.forbiddenOrigin, store)
  else
    let email := trimStr i.email
    if ¬ emailOk email then (.invalidEmail, store)
    else if i.product_id = "" ∨ i.variant_id = "" then (.missingIdents, store)
    else if jsOfferCentsOpt i.offer = 0 then (.offerRequired, store)
    else
      let em := lowerStr email
      if store.offers.any (dupMatch now em i.variant_id) then (.duplicate, store)
      else
        (.created store.nextId,
         { offers := store.offers ++ [mkRow now store.nextId i],
           nextId := store.nextId + 1 })

/-- `price_rule` request body sent to `POST /price_rules.json`. -/
structure PriceRuleReq where
  title : String
  target_type : String
  target_selection : String
  allocation_method : String
  value_type : String
  value : String
  customer_selection : String
  starts_at : Nat
  ends_at : Nat
  usage_limit : Nat
  once_per_customer : Bool
  entitled_variant_ids : List Nat
deriving DecidableEq

/-- A call made to the Shopify REST discount endpoints. -/
inductive PlatformCall
  | priceRule (req : PriceRuleReq)
  | discountCode (priceRuleId : Nat) (code : String)
deriving DecidableEq

/-- Error branches of `createDiscountForOffer` (each a `throw` in the
source). -/
inductive DiscountError
  | missingPriceOffer
  | noDiscountNeeded
  | badVariant
  | noPriceRuleId
  | platformFailed
deriving DecidableEq

/-- The commerce platform's responses for one provisioning attempt:
`priceRule` is the returned `price_rule.id` (`none` = the call threw),
`codeCallOk`/`codeValue` the discount-code call and its `code` field. -/
structure DiscountPlatform where
  priceRule : Option Nat
  codeCallOk : Bool
  codeValue : Option String
deriving DecidableEq

/-- The `codeInfo` value the status route builds on accept. -/
structure CodeInfo where
  code : String
  priceRuleId : String
  endsAt : Option Nat
deriving DecidableEq

/-- `createDiscountForOffer(row)`: precondition checks, the price-rule
request, the discount-code request, and the write-back of
`discount_code` / `price_rule_id` / `discount_expires_at`.  Returns the
platform-call trace, the resulting store, and the result. -/
def createDiscountForOffer (p : DiscountPlatform) (ttlDays : Option Nat)
    (nowMs : Nat) (suffix : String) (store : Store) (row : Offer) :
    List PlatformCall × Store × Except DiscountError CodeInfo :=
  if row.price_cents = 0 ∨ row.offer_cents = 0 then
    ([], store, .error .missingPriceOffer)
  else
    let diffCents : Int := max 0 ((row.price_cents : Int) - (row.offer_cents : Int))
    if diffCents ≤ 0 then ([], store, .error .noDiscountNeeded)
    else if ¬ jsTruthyNum (getNumericId row.variant_id) then
      ([], store, .error .badVariant)
    else
      let v := (getNumericId row.variant_id).getD 0
      let code := "OFFER-" ++ toString row.id ++ "-" ++ suffix
      let endsAt := nowMs + (ttlDays.getD 7) * 86400000
      let req : PriceRuleReq :=
        { title := "Offer " ++ toString row.id ++ " – " ++ row.product_title
          target_type := "line_item"
          target_selection := "entitled"
          allocation_method := "each"
          value_type := "fixed_amount"
          value := "-" ++ fmtCents diffCents.toNat
          customer_selection := "all"
          starts_at := nowMs
          ends_at := endsAt
          usage_limit := 1
          once_per_customer := true
          entitled_variant_ids := [v] }
      match p.priceRule with
      | none => ([.priceRule req], store, .error .platformFailed)
      | some prId =>
        if prId = 0 then ([.priceRule req], store, .error .noPriceRuleId)
        else if ¬ p.codeCallOk then
          ([.priceRule req, .discountCode prId code], store, .error .platformFailed)
        else
          let createdCode :=
            match p.codeValue with
            | some c => if c = "" then code else c
            | none => code
          ([.priceRule req, .discountCode prId code],
           applyDiscountFields store row.id createdCode (toString prId) endsAt,
           .ok { code := createdCode, priceRuleId := toString prId,
                 endsAt := some endsAt })

/-- Decidable equality for `Except` results. -/
instance exceptDecEq {ε α : Type} [DecidableEq ε] [DecidableEq α] :
    DecidableEq (Except ε α)
  | .error e, .error f =>
    if h : e = f then .isTrue (by rw [h])
    else .isFalse (fun hh => h (Except.error.inj hh))
  | .error _, .ok _ => .isFalse (fun hh => Except.noConfusion hh)
  | .ok _, .error _ => .isFalse (fun hh => Except.noConfusion hh)
  | .ok x, .ok y =>
    if h : x = y then .isTrue (by rw [h])
    else .isFalse (fun hh => h (Except.ok.inj hh))

/-- Outcome of an admin route. -/
inductive AdminResp
  | forbidden
  | badStatus
  | notFound
  | dbError
  | redirect
deriving DecidableEq

/-- A buyer-facing mail the status route assembles (structured form of
the subject/html templates of the source; there is a single template per
kind, with no language input). -/
inductive EmailMsg
  | accept (rcpt productTitle currency amount code : String)
      (endsAt : Option Nat) (host : String) (variantId : Option Nat)
  | decline (rcpt productTitle : String)
deriving DecidableEq

/-- `String(req.query.value || "open")`: missing or empty falls back to
`"open"`. -/
def jsStrOr (v : Option String) (dflt : String) : String :=
  match v with
  | none => dflt
  | some s => if s = "" then dflt else s

/-- `GET /admin/offers/:id/status` (post-key-check): validate the target
status, look the offer up, write the status, then run the best-effort
accept/decline side effects and redirect.  `mailOk` is the mailer's
delivery outcome (a failed `sendMail` is caught); each attempted mail is
traced with that outcome. -/
def statusHandler (p : DiscountPlatform) (ttlDays : Option Nat) (nowMs : Nat)
    (suffix : String) (mailerPresent mailOk : Bool) (store : Store)
    (id : Nat) (value : Option String) :
    AdminResp × Store × List PlatformCall × List (EmailMsg × Bool) :=
  let val := jsStrOr value "open"
  if ¬ val ∈ ["open", "accepted", "declined", "expired"] then
    (.badStatus, store, [], [])
  else
    match findOffer store id with
    | none => (.notFound, store, [], [])
    | some row =>
      let store1 := updateStatusIn store id val
      if val = "accepted" then
        let step :=
          if jsTruthyStr row.discount_code then
            ([], store1,
             (Except.ok { code := row.discount_code.getD "",
                          priceRuleId := row.price_rule_id.getD "",
                          endsAt := row.discount_expires_at } :
               Except DiscountError CodeInfo))
          else createDiscountForOffer p ttlDays nowMs suffix store1 row
        let codeInfo := step.2.2.toOption
        let emails :=
          if mailerPresent ∧ row.email ≠ "" then
            [(EmailMsg.accept row.email row.product_title row.currency
                (fmtCents row.offer_cents)
                (match codeInfo with | some ci => ci.code | none => "(contact us)")
                (match codeInfo with | some ci => ci.endsAt | none => none)
                (if row.shop_domain = "" then "smelltoimpress.com" else row.shop_domain)
                (getNumericId row.variant_id), mailOk)]
          else []
        (.redirect, step.2.1, step.1, emails)
      else if val = "declined" then
        let emails :=
          if mailerPresent ∧ row.email ≠ "" then
            [(EmailMsg.decline row.email row.product_title, mailOk)]
          else []
        (.redirect, store1, [], emails)
      else (.redirect, store1, [], [])

/-- `GET /admin/offers/:id/create-code` (post-key-check): look the offer
up; provision only when no code is stored; errors are logged; always
redirect. -/
def createCodeHandler (p : DiscountPlatform) (ttlDays : Option Nat)
    (nowMs : Nat) (suffix : String) (store : Store) (id : Nat) :
    AdminResp × Store × List PlatformCall :=
  match findOffer store id with
  | none => (.notFound, store, [])
  | some row =>
    if jsTruthyStr row.discount_code then (.redirect, store, [])
    else
      let step := createDiscountForOffer p ttlDays nowMs suffix store row
      (.redirect, step.2.1, step.1)

/-- One entry of `MARKET_MAP_JSON`. -/
structure MarketEntry where
  host : String
  currency : String
  country : String
deriving DecidableEq

/-- `resolveMarketForHost`: exact (case-folded) host lookup, then the
TLD fallback, defaulting to GBP/GB. -/
def resolveMarketForHost (marketMap : List MarketEntry) (host : String) :
    String × String :=
  let h := lowerStr host
  match marketMap.find? (fun m => lowerStr m.host == h) with
  | some m => (m.currency, m.country)
  | none =>
    if endsWithStr h ".jp" then ("JPY", "JP")
    else if endsWithStr h ".co.uk" || endsWithStr h ".uk" || endsWithStr h ".com" then
      ("GBP", "GB")
    else ("GBP", "GB")

/-- Insertion step of the `ORDER BY created_at ASC` sort. -/
def insertByCreated (x : Offer) : List Offer → List Offer
  | [] => [x]
  | y :: ys =>
    if x.created_at ≤ y.created_at then x :: y :: ys else y :: insertByCreated x ys

/-- `ORDER BY created_at ASC` (insertion sort). -/
def sortByCreated : List Offer → List Offer
  | [] => []
  | x :: xs => insertByCreated x (sortByCreated xs)

/-- The bundler's `WHERE` clause: accepted offers of this email and shop
whose `draft_order_id` is `NULL` or `''`. -/
def eligibleFor (emailNorm shopDomain : String) (o : Offer) : Bool :=
  decide (o.email_norm = emailNorm ∧ o.shop_domain = shopDomain ∧
    o.status = "accepted" ∧
    (o.draft_order_id = none ∨ o.draft_order_id = some ""))

/-- The rows the bundler's initial query returns. -/
def bundleRows (store : Store) (emailNorm shopDomain : String) : List Offer :=
  sortByCreated (store.offers.filter (eligibleFor emailNorm shopDomain))

/-- One GraphQL draft-order line item. -/
structure LineItem where
  variantId : String
  quantity : Nat
  amount : String
  currencyCode : String
  offerId : String
deriving DecidableEq

/-- The line item built for one offer. -/
def mkLineItem (currency : String) (r : Offer) : LineItem :=
  { variantId := toGID "ProductVariant" ((getNumericId r.variant_id).getD 0)
    quantity := 1
    amount := fmtCents r.offer_cents
    currencyCode := currency
    offerId := toString r.id }

/-- The `if (!numeric)` / `if (!variantNumericId)` guard: does this
offer's variant id resolve to a truthy numeric platform id? -/
def truthyVar (r : Offer) : Bool := jsTruthyNum (getNumericId r.variant_id)

/-- The bundler's build loop: skip any row whose variant id is not a
truthy numeric id, collecting line items and the bundled offer ids. -/
def buildLineItems (currency : String) : List Offer → List LineItem × List Nat
  | [] => ([], [])
  | r :: rs =>
    let rest := buildLineItems currency rs
    if truthyVar r then
      (mkLineItem currency r :: rest.1, r.id :: rest.2)
    else rest

/-- The `draftOrderCreate` input actually sent. -/
structure DraftReq where
  email : String
  lineItems : List LineItem
  presentmentCurrencyCode : String
  note : String
  tags : List String
deriving DecidableEq

/-- Platform responses for one bundler run: `draftCreate` carries the
returned `draftOrder.id` (`none` = the call failed or returned no id);
`invoiceOk` the invoice-send outcome (best-effort). -/
structure DraftPlatform where
  draftCreate : Option String
  invoiceOk : Bool
deriving DecidableEq

/-- Error branches of `createDraftForEmailAndShop`. -/
inductive BundleError
  | nothingToBundle
  | noValidLineItems
  | draftCreateFailed
deriving DecidableEq

/-- The successful bundler result. -/
structure BundleResult where
  draftId : String
  count : Nat
  email : String
  presentmentCurrency : String
deriving DecidableEq

/-- `createDraftForEmailAndShop(emailNorm, shopDomain)`: query the
eligible offers; resolve the market; build line items skipping bad
variant ids; create the draft; on success mark every bundled offer with
the draft id in one batch `UPDATE`; invoice sending is best-effort.
Returns result, resulting store, and the draft request sent (if any). -/
def createDraftForEmailAndShop (marketMap : List MarketEntry)
    (dp : DraftPlatform) (now : Nat) (store : Store)
    (emailNorm shopDomain : String) :
    Except BundleError BundleResult × Store × Option DraftReq :=
  let rows := bundleRows store emailNorm shopDomain
  match rows with
  | [] => (.error .nothingToBundle, store, none)
  | r0 :: rtl =>
    let mk := resolveMarketForHost marketMap shopDomain
    let email := r0.email
    let built := buildLineItems mk.1 (r0 :: rtl)
    if built.1 = [] then (.error .noValidLineItems, store, none)
    else
      let req : DraftReq :=
        { email := email
          lineItems := built.1
          presentmentCurrencyCode := mk.1
          note := "Offers: " ++ String.intercalate ", " (built.2.map toString) ++
                  " (market " ++ mk.2 ++ "/" ++ mk.1 ++ ")"
          tags := ["make-offer"] }
      match dp.draftCreate with
      | none => (.error .draftCreateFailed, store, some req)
      | some gqlId =>
        if gqlId = "" then (.error .draftCreateFailed, store, some req)
        else
          let store2 : Store :=
            { store with offers := store.offers.map (fun o =>
                if o.id ∈ built.2 then
                  { o with draft_order_id := some gqlId, drafted_at := some now }
                else o) }
          (.ok { draftId := gqlId, count := built.2.length, email := email,
                 presentmentCurrency := mk.1 },
           store2, some req)

/-- A concrete offer row used by witnesses. -/
def exOffer : Offer :=
  { id := 1
    created_at := 1000
    shop_domain := "shop.com"
    product_id := "p1"
    product_handle := "h"
    product_title := "T"
    variant_id := "gid://shopify/ProductVariant/999"
    variant_title := "V"
    currency := "GBP"
    price_cents := 10000
    offer_cents := 5000
    email := "a@b.co"
    email_norm := "a@b.co"
    note := ""
    status := "open"
    discount_code := none
    price_rule_id := none
    discount_expires_at := none
    draft_order_id := none
    drafted_at := none
    ip := ""
    ua := "" }

/-- A concrete store holding `exOffer`. -/
def exStore : Store := ⟨[exOffer], 2⟩

/-- A concrete healthy platform response for witnesses. -/
def exPlatform : DiscountPlatform := ⟨some 77, true, some "CODE77"⟩

/-- A concrete request body used by witnesses. -/
def exInput : OfferInput :=
  { origin := ""
    shop_domain := "shop.com"
    product_id := "p1"
    product_handle := "h"
    product_title := "T"
    variant_id := "gid://shopify/ProductVariant/999"
    variant_title := "V"
    currency := "GBP"
    price_cents := 10000
    offer := some ⟨false, 5000, 2⟩
    email := "a@b.co"
    note := ""
    lang := "en"
    ip := ""
    ua := "" }

/-- `exOffer` with the degenerate numeric variant id `.../0`. -/
def exOffer0 : Offer := { exOffer with variant_id := "gid://shopify/ProductVariant/0" }

/-- `exOffer` with discount fields already provisioned. -/
def exOfferCoded : Offer := { exOffer with
  discount_code := some "OLD"
  price_rule_id := some "9"
  discount_expires_at := some 5 }

/-- A store holding `exOfferCoded`. -/
def exStoreCoded : Store := ⟨[exOfferCoded], 2⟩

/-- `exOffer` offering more than the listed price. -/
def exOfferHi : Offer := { exOffer with offer_cents := 12000 }

/-- `exOffer` with a variant id carrying no digits. -/
def exOfferBadVar : Offer := { exOffer with variant_id := "novariant" }

/-- Accepted un-bundled offer, resolvable variant 999. -/
def cOffer1 : Offer := { exOffer with
  id := 1
  status := "accepted" }

/-- Accepted un-bundled offer, resolvable variant 777. -/
def cOffer2 : Offer := { exOffer with
  id := 2
  status := "accepted"
  variant_id := "gid://shopify/ProductVariant/777" }

/-- Accepted un-bundled offer with an unresolvable variant id. -/
def cOffer3 : Offer := { exOffer with
  id := 3
  status := "accepted"
  variant_id := "novariant" }

/-- Three accepted offers, one with an unresolvable variant id. -/
def cStore : Store := ⟨[cOffer1, cOffer2, cOffer3], 4⟩

/-- A store whose only accepted offer has an unresolvable variant id. -/
def cStoreBad : Store := ⟨[cOffer3], 2⟩

/-- Two good accepted offers and one with an unresolvable variant id. -/
def bStore : Store := ⟨[cOffer1, cOffer3], 3⟩

/-- Two resolvable accepted offers only. -/
def dStore : Store := ⟨[cOffer1, cOffer2], 3⟩

/-- A healthy draft-order platform response. -/
def exDraftPlatform : DraftPlatform := ⟨some "gid://shopify/DraftOrder/5", true⟩

/-- `cOffer1` marked by the bundler. -/
def cOffer1M : Offer := { cOffer1 with
  draft_order_id := some "gid://shopify/DraftOrder/5"
  drafted_at := some 99 }

/-- `cOffer2` marked by the bundler. -/
def cOffer2M : Offer := { cOffer2 with
  draft_order_id := some "gid://shopify/DraftOrder/5"
  drafted_at := some 99 }

/-- The store after a successful bundler run on `dStore`. -/
def dStoreMarked : Store := ⟨[cOffer1M, cOffer2M], 3⟩

/-- The successful bundler result on `dStore`. -/
def dRes0 : BundleResult :=
  { draftId := "gid://shopify/DraftOrder/5"
    count := 2
    email := "a@b.co"
    presentmentCurrency := "GBP" }

/-- The draft request the bundler sends for `dStore`. -/
def dReq0 : DraftReq :=
  { email := "a@b.co"
    lineItems := [mkLineItem "GBP" cOffer1, mkLineItem "GBP" cOffer2]
    presentmentCurrencyCode := "GBP"
    note := "Offers: 1, 2 (market GB/GBP)"
    tags := ["make-offer"] }

theorem mem_insertByCreated {a x : Offer} {l : List Offer} :
    a ∈ insertByCreated x l ↔ a = x ∨ a ∈ l := by
  induction l with
  | nil => simp [insertByCreated]
  | cons y ys ih =>
    by_cases h : x.created_at ≤ y.created_at
    · simp [insertByCreated, h]
    · simp only [insertByCreated, if_neg h, List.mem_cons, ih]
      tauto

theorem mem_sortByCreated {a : Offer} {l : List Offer} :
    a ∈ sortByCreated l ↔ a ∈ l := by
  induction l with
  | nil => simp [sortByCreated]
  | cons x xs ih => simp [sortByCreated, mem_insertByCreated, ih]

theorem mem_bundleRows {a : Offer} {store : Store} {em sd : String} :
    a ∈ bundleRows store em sd ↔
      a ∈ store.offers ∧ eligibleFor em sd a = true := by
  simp [bundleRows, mem_sortByCreated, List.mem_filter]

theorem buildLineItems_eq_filter (c : String) (rows : List Offer) :
    buildLineItems c rows =
      ((rows.filter truthyVar).map (mkLineItem c),
       (rows.filter truthyVar).map (fun r => r.id)) := by
  induction rows with
  | nil => rfl
  | cons r rs ih =>
    by_cases h : truthyVar r <;> simp [buildLineItems, h, ih, List.filter_cons]

theorem createDiscount_store_cases (p : DiscountPlatform) (ttl : Option Nat)
    (nowMs : Nat) (suffix : String) (store : Store) (row : Offer) :
    (createDiscountForOffer p ttl nowMs suffix store row).2.1 = store ∨
    ∃ code rid ends, (createDiscountForOffer p ttl nowMs suffix store row).2.1 =
      applyDiscountFields store row.id code rid ends := by
  unfold createDiscountForOffer
  dsimp only
  repeat' split
  all_goals first
    | exact Or.inl rfl
    | exact Or.inr ⟨_, _, _, rfl⟩

theorem applyDiscountFields_mem {store : Store} {id : Nat}
    {c r : String} {e : Nat} :
    ∀ o ∈ (applyDiscountFields store id c r e).offers,
      ∃ oo ∈ store.offers, o.id = oo.id ∧ o.status = oo.status := by
  intro o ho
  simp only [applyDiscountFields, List.mem_map] at ho
  obtain ⟨oo, hoo, hmap⟩ := ho
  refine ⟨oo, hoo, ?_⟩
  by_cases h : oo.id = id
  · rw [if_pos h] at hmap; rw [← hmap]; exact ⟨rfl, rfl⟩
  · rw [if_neg h] at hmap; rw [← hmap]; exact ⟨rfl, rfl⟩

theorem createDiscount_store_mem (p : DiscountPlatform) (ttl : Option Nat)
    (nowMs : Nat) (suffix : String) (store : Store) (row : Offer) :
    ∀ o ∈ (createDiscountForOffer p ttl nowMs suffix store row).2.1.offers,
      ∃ oo ∈ store.offers, o.id = oo.id ∧ o.status = oo.status := by
  intro o ho
  rcases createDiscount_store_cases p ttl nowMs suffix store row with h | ⟨c, r, e, h⟩
  · rw [h] at ho; exact ⟨o, ho, rfl, rfl⟩
  · rw [h] at ho; exact applyDiscountFields_mem o ho

theorem status_updateStatusIn {store : Store} {id : Nat} {val : String} :
    ∀ o ∈ (updateStatusIn store id val).offers, o.id = id → o.status = val := by
  intro o ho hid
  simp only [updateStatusIn, List.mem_map] at ho
  obtain ⟨oo, hoo, hmap⟩ := ho
  by_cases h : oo.id = id
  · rw [← hmap]; simp [h]
  · rw [← hmap] at hid; simp [h] at hid

/-- C9: a variant id whose extractable trailing digit string denotes 0
(for example "gid://shopify/ProductVariant/0") is treated exactly like
an id with no digits at all: `getNumericId` returns the number 0, which
is falsy like `NaN`, so `createDiscountForOffer` fails with the
bad-variant error (with no platform call and no store change) and the
bundler's build loop skips the offer. -/
theorem zero_numeric_suffix_unresolvable :
    getNumericId "gid://shopify/ProductVariant/0" = some 0 ∧
    jsTruthyNum (some 0) = jsTruthyNum none ∧
    (∀ (p : DiscountPlatform) (ttl : Option Nat) (nowMs : Nat)
       (suffix : String) (store : Store) (row : Offer),
      getNumericId row.variant_id = some 0 →
      row.price_cents ≠ 0 → row.offer_cents ≠ 0 →
      row.offer_cents < row.price_cents →
      createDiscountForOffer p ttl nowMs suffix store row =
        ([], store, .error .badVariant)) ∧
    (∀ (c : String) (row : Offer) (rs : List Offer),
      getNumericId row.variant_id = some 0 →
      buildLineItems c (row :: rs) = buildLineItems c rs) := by
  refine ⟨by decide, by decide, ?_, ?_⟩
  · intro p ttl nowMs suffix store row hnum hp ho hlt
    unfold createDiscountForOffer
    rw [if_neg (by omega : ¬(row.price_cents = 0 ∨ row.offer_cents = 0))]
    dsimp only
    rw [if_neg (by omega :
      ¬(0 ⊔ ((row.price_cents : Int) - (row.offer_cents : Int)) ≤ 0))]
    rw [hnum]
    rw [if_pos (by decide : ¬jsTruthyNum (some 0) = true)]
  · intro c row rs hnum
    simp [buildLineItems, truthyVar, hnum, jsTruthyNum]

/-- Witness for C9 at the concrete variant id "gid://shopify/ProductVariant/0". -/
theorem zero_numeric_suffix_unresolvable_witness :
    createDiscountForOffer exPlatform none 0 "SFX" exStore exOffer0 =
      ([], exStore, .error .badVariant) ∧
    buildLineItems "GBP" [exOffer0] = buildLineItems "GBP" [] :=
  ⟨zero_numeric_suffix_unresolvable.2.2.1 exPlatform none 0 "SFX" exStore exOffer0
      (by decide) (by decide) (by decide) (by decide),
   zero_numeric_suffix_unresolvable.2.2.2 "GBP" exOffer0 [] (by decide)⟩

/-- C10 counterexample: the claim says any value outside
{open, accepted, declined, expired} is rejected with Bad status, but the
empty string is outside that set and is not rejected: `?value=` falls
into the `|| "open"` fallback and the handler silently reopens the offer
and redirects. -/
theorem empty_status_value_not_rejected :
    ¬ "" ∈ ["open", "accepted", "declined", "expired"] ∧
    (statusHandler ⟨none, false, none⟩ none 0 "S" false false exStore 1
        (some "")).1 = AdminResp.redirect ∧
    (statusHandler ⟨none, false, none⟩ none 0 "S" false false exStore 1
        (some "")).2.1 = updateStatusIn exStore 1 "open" := by decide

/-- C10 amended: a missing or empty `value` parameter is silently
treated as "open" (a reopen, performed with no side effects), and any
nonempty value outside {open, accepted, declined, expired} is rejected
with Bad status before any store read or write, leaving every offer
unchanged (even for a nonexistent offer id the rejection comes first). -/
theorem status_value_validation (p : DiscountPlatform) (ttl : Option Nat)
    (nowMs : Nat) (suffix : String) (mp mo : Bool) (store : Store) (id : Nat) :
    (statusHandler p ttl nowMs suffix mp mo store id none =
      statusHandler p ttl nowMs suffix mp mo store id (some "open")) ∧
    (statusHandler p ttl nowMs suffix mp mo store id (some "") =
      statusHandler p ttl nowMs suffix mp mo store id (some "open")) ∧
    (∀ row, findOffer store id = some row →
      statusHandler p ttl nowMs suffix mp mo store id none =
        (.redirect, updateStatusIn store id "open", [], [])) ∧
    (∀ v, ¬ v ∈ ["open", "accepted", "declined", "expired"] → v ≠ "" →
      statusHandler p ttl nowMs suffix mp mo store id (some v) =
        (.badStatus, store, [], [])) := by
  refine ⟨rfl, by simp [statusHandler, jsStrOr], ?_, ?_⟩
  · intro row hrow
    simp only [statusHandler, jsStrOr]
    rw [if_neg (by decide)]
    simp [hrow]
  · intro v hv hne
    simp only [statusHandler, jsStrOr, if_neg hne]
    rw [if_pos hv]

/-- Witness for C10 at a concrete store, offer and bad value. -/
theorem status_value_validation_witness :
    statusHandler exPlatform none 0 "S" true true exStore 1 none =
      (.redirect, updateStatusIn exStore 1 "open", [], []) ∧
    statusHandler exPlatform none 0 "S" true true exStore 1 (some "bogus") =
      (.badStatus, exStore, [], []) :=
  ⟨(status_value_validation exPlatform none 0 "S" true true exStore 1).2.2.1
      exOffer (by decide),
   (status_value_validation exPlatform none 0 "S" true true exStore 1).2.2.2
      "bogus" (by decide) (by decide)⟩

/-- C2: discount provisioning is idempotent per offer.  For an offer
that already has a truthy (non-empty) discount code, the accept
transition makes no platform call and its store result is exactly the
pure status update (code, rule id and expiry untouched), and the manual
create-code retry makes no platform call and leaves the store entirely
unchanged, so however many times accept/retry runs the stored code is
the one already there. -/
theorem provisioning_idempotent (p : DiscountPlatform) (ttl : Option Nat)
    (nowMs : Nat) (suffix : String) (mp mo : Bool) (store : Store)
    (id : Nat) (row : Offer)
    (hrow : findOffer store id = some row)
    (hcode : jsTruthyStr row.discount_code = true) :
    (statusHandler p ttl nowMs suffix mp mo store id (some "accepted")).1 =
      .redirect ∧
    (statusHandler p ttl nowMs suffix mp mo store id (some "accepted")).2.1 =
      updateStatusIn store id "accepted" ∧
    (statusHandler p ttl nowMs suffix mp mo store id (some "accepted")).2.2.1 =
      [] ∧
    createCodeHandler p ttl nowMs suffix store id = (.redirect, store, []) := by
  constructor
  · simp [statusHandler, jsStrOr, hrow, hcode]
  constructor
  · simp [statusHandler, jsStrOr, hrow, hcode]
  constructor
  · simp [statusHandler, jsStrOr, hrow, hcode]
  · simp [createCodeHandler, hrow, hcode]

/-- Witness for C2: an offer with a stored code, accepted again and
retried, with a live platform standing by that is never called. -/
theorem provisioning_idempotent_witness :
    (statusHandler exPlatform none 0 "SFX" true true exStoreCoded 1
        (some "accepted")).1 = .redirect ∧
    (statusHandler exPlatform none 0 "SFX" true true exStoreCoded 1
        (some "accepted")).2.1 = updateStatusIn exStoreCoded 1 "accepted" ∧
    (statusHandler exPlatform none 0 "SFX" true true exStoreCoded 1
        (some "accepted")).2.2.1 = [] ∧
    createCodeHandler exPlatform none 0 "SFX" exStoreCoded 1 =
      (.redirect, exStoreCoded, []) :=
  provisioning_idempotent exPlatform none 0 "SFX" true true exStoreCoded 1
    exOfferCoded (by decide) (by decide)

/-- C1: for a valid target status on an existing offer, the admin
status route always redirects and the written status stands, whatever
the discount platform's responses and the mailer's delivery outcome:
side-effect failures neither roll the status back nor surface as an
HTTP error. -/
theorem status_write_authoritative (p : DiscountPlatform) (ttl : Option Nat)
    (nowMs : Nat) (suffix : String) (mp mo : Bool) (store : Store)
    (id : Nat) (value : Option String) (row : Offer)
    (hval : jsStrOr value "open" ∈ ["open", "accepted", "declined", "expired"])
    (hrow : findOffer store id = some row) :
    (statusHandler p ttl nowMs suffix mp mo store id value).1 = .redirect ∧
    ∀ o ∈ (statusHandler p ttl nowMs suffix mp mo store id value).2.1.offers,
      o.id = id → o.status = jsStrOr value "open" := by
  have hstep :
      (statusHandler p ttl nowMs suffix mp mo store id value).1 = .redirect ∧
      (∀ o ∈ (statusHandler p ttl nowMs suffix mp mo store id value).2.1.offers,
        ∃ oo ∈ (updateStatusIn store id (jsStrOr value "open")).offers,
          o.id = oo.id ∧ o.status = oo.status) := by
    simp only [statusHandler]
    rw [if_neg (not_not_intro hval)]
    simp only [hrow]
    by_cases hacc : jsStrOr value "open" = "accepted"
    · rw [if_pos hacc]
      by_cases hc : jsTruthyStr row.discount_code
      · simp only [hc, if_pos]
        exact ⟨by trivial, fun o ho => ⟨o, ho, rfl, rfl⟩⟩
      · simp only [hc, Bool.false_eq_true, if_false]
        exact ⟨by trivial, fun o ho =>
          createDiscount_store_mem p ttl nowMs suffix
            (updateStatusIn store id (jsStrOr value "open")) row o ho⟩
    · rw [if_neg hacc]
      by_cases hdec : jsStrOr value "open" = "declined"
      · rw [if_pos hdec]
        exact ⟨rfl, fun o ho => ⟨o, ho, rfl, rfl⟩⟩
      · rw [if_neg hdec]
        exact ⟨rfl, fun o ho => ⟨o, ho, rfl, rfl⟩⟩
  refine ⟨hstep.1, fun o ho hid => ?_⟩
  obtain ⟨oo, hoo, hid2, hst⟩ := hstep.2 o ho
  rw [hst]
  exact status_updateStatusIn oo hoo (by rw [← hid2, hid])

/-- Witness for C1: accepting a concrete offer while the platform
throws on the price-rule call and the mail delivery fails still
redirects and leaves the offer accepted. -/
theorem status_write_authoritative_witness :
    (statusHandler ⟨none, false, none⟩ none 0 "SFX" true false exStore 1
        (some "accepted")).1 = .redirect ∧
    ∀ o ∈ (statusHandler ⟨none, false, none⟩ none 0 "SFX" true false exStore 1
        (some "accepted")).2.1.offers,
      o.id = 1 → o.status = jsStrOr (some "accepted") "open" :=
  status_write_authoritative ⟨none, false, none⟩ none 0 "SFX" true false
    exStore 1 (some "accepted") exOffer (by decide) (by decide)

/-- C7: with both prices present (nonzero) — if the offered price is
strictly below the listed price and the variant resolves, the first
platform call is a price-rule request with fixed amount equal to
listed − offered minor units, scoped to exactly that variant, usage
limit 1, once-per-customer, starting now and ending now plus the
configured TTL in days (`ttl.getD 7`: 7 days when unconfigured); if the
offered price is at or above the listed price the call fails with
`noDiscountNeeded`, and if the variant id yields no truthy numeric id it
fails with `badVariant` — in both failure cases with no platform call
and no store change. -/
theorem discount_provisioning_contract (p : DiscountPlatform)
    (ttl : Option Nat) (nowMs : Nat) (suffix : String) (store : Store)
    (row : Offer) (hp : row.price_cents ≠ 0) (ho : row.offer_cents ≠ 0) :
    (row.offer_cents < row.price_cents →
      jsTruthyNum (getNumericId row.variant_id) = true →
      (createDiscountForOffer p ttl nowMs suffix store row).1.head? =
        some (.priceRule
          { title := "Offer " ++ toString row.id ++ " – " ++ row.product_title
            target_type := "line_item"
            target_selection := "entitled"
            allocation_method := "each"
            value_type := "fixed_amount"
            value := "-" ++ fmtCents (row.price_cents - row.offer_cents)
            customer_selection := "all"
            starts_at := nowMs
            ends_at := nowMs + ttl.getD 7 * 86400000
            usage_limit := 1
            once_per_customer := true
            entitled_variant_ids := [(getNumericId row.variant_id).getD 0] })) ∧
    (row.price_cents ≤ row.offer_cents →
      createDiscountForOffer p ttl nowMs suffix store row =
        ([], store, .error .noDiscountNeeded)) ∧
    (row.offer_cents < row.price_cents →
      jsTruthyNum (getNumericId row.variant_id) = false →
      createDiscountForOffer p ttl nowMs suffix store row =
        ([], store, .error .badVariant)) := by
  refine ⟨?_, ?_, ?_⟩
  · intro hlt htr
    unfold createDiscountForOffer
    rw [if_neg (by omega : ¬(row.price_cents = 0 ∨ row.offer_cents = 0))]
    dsimp only
    rw [if_neg (by omega :
      ¬(0 ⊔ ((row.price_cents : Int) - (row.offer_cents : Int)) ≤ 0))]
    rw [if_neg (by simp [htr])]
    have hdiff : (0 ⊔ ((row.price_cents : Int) - (row.offer_cents : Int))).toNat =
        row.price_cents - row.offer_cents := by omega
    rw [hdiff]
    repeat' split
    all_goals rfl
  · intro hle
    unfold createDiscountForOffer
    rw [if_neg (by omega : ¬(row.price_cents = 0 ∨ row.offer_cents = 0))]
    dsimp only
    rw [if_pos (by omega :
      0 ⊔ ((row.price_cents : Int) - (row.offer_cents : Int)) ≤ 0)]
  · intro hlt htr
    unfold createDiscountForOffer
    rw [if_neg (by omega : ¬(row.price_cents = 0 ∨ row.offer_cents = 0))]
    dsimp only
    rw [if_neg (by omega :
      ¬(0 ⊔ ((row.price_cents : Int) - (row.offer_cents : Int)) ≤ 0))]
    rw [if_pos (by simp [htr])]

/-- Witness for C7: the three branches at concrete offers (offer 50.00
against list 100.00 entitles variant 999 with a −50.00 rule; offering
120.00 against 100.00 needs no discount; a digit-free variant id is
rejected). -/
theorem discount_provisioning_contract_witness :
    (createDiscountForOffer exPlatform none 5 "SFX" exStore exOffer).1.head? =
      some (.priceRule
        { title := "Offer " ++ toString exOffer.id ++ " – " ++ exOffer.product_title
          target_type := "line_item"
          target_selection := "entitled"
          allocation_method := "each"
          value_type := "fixed_amount"
          value := "-" ++ fmtCents (exOffer.price_cents - exOffer.offer_cents)
          customer_selection := "all"
          starts_at := 5
          ends_at := 5 + Option.getD none 7 * 86400000
          usage_limit := 1
          once_per_customer := true
          entitled_variant_ids := [(getNumericId exOffer.variant_id).getD 0] }) ∧
    createDiscountForOffer exPlatform none 5 "SFX" exStore exOfferHi =
      ([], exStore, .error .noDiscountNeeded) ∧
    createDiscountForOffer exPlatform none 5 "SFX" exStore exOfferBadVar =
      ([], exStore, .error .badVariant) :=
  ⟨(discount_provisioning_contract exPlatform none 5 "SFX" exStore exOffer
      (by decide) (by decide)).1 (by decide) (by decide),
   (discount_provisioning_contract exPlatform none 5 "SFX" exStore exOfferHi
      (by decide) (by decide)).2.1 (by decide),
   (discount_provisioning_contract exPlatform none 5 "SFX" exStore exOfferBadVar
      (by decide) (by decide)).2.2 (by decide) (by decide)⟩

/-- C4 counterexample: the conversion is not round-half-away-from-zero
at 2 decimal places.  For the decimal input 1.005 the code computes
`Math.round(parseFloat("1.005") * 100)`: the double product is
100.49999999999999, so the stored amount is 100 minor units, while
rounding 100.5 half away from zero gives 101. -/
theorem offer_rounding_counterexample :
    jsOfferCentsFrac 1005 3 = 100 ∧ specRoundHalfAwayCents 1005 3 = 101 := by
  decide

/-- C4 amended: the parser converts via the IEEE-754 double pipeline
(`Math.round` of the parsed double times 100 — nearest, ties toward
+∞, applied to the float product), which agrees with
round-half-away-from-zero on the cited particulars — 19.995 major units
are stored as 2000 minor units and 19.994 as 1999 — but not universally
(1.005 yields 100, not 101); an amount that is not positive after
rounding is rejected with the offer-required error. -/
theorem offer_rounding_float_pipeline :
    jsOfferCentsFrac 19995 3 = 2000 ∧
    jsOfferCentsFrac 19994 3 = 1999 ∧
    jsOfferCentsFrac 1005 3 = 100 ∧
    (∀ (allow : List String) (now : Nat) (store : Store) (i : OfferInput),
      (allow = [] ∨ i.origin ∈ allow) →
      emailOk (trimStr i.email) = true →
      i.product_id ≠ "" → i.variant_id ≠ "" →
      jsOfferCentsOpt i.offer = 0 →
      submitOffer allow now store i = (.offerRequired, store)) := by
  refine ⟨by decide, by decide, by decide, ?_⟩
  intro allow now store i horig hmail hpid hvid hcents
  unfold submitOffer
  rw [if_neg (by rcases horig with h | h <;> simp [h])]
  dsimp only
  rw [if_neg (not_not_intro hmail)]
  rw [if_neg (by simp [hpid, hvid])]
  rw [if_pos hcents]

/-- Witness for C4's amended rejection clause: a request with a missing
(unparseable) amount is rejected. -/
theorem offer_rounding_float_pipeline_witness :
    submitOffer [] 0 exStore { exInput with offer := none } =
      (.offerRequired, exStore) :=
  offer_rounding_float_pipeline.2.2.2 [] 0 exStore
    { exInput with offer := none }
    (Or.inl rfl) (by decide) (by decide) (by decide) (by decide)

set_option maxRecDepth 8000 in
/-- C8 counterexample: the code performs no language resolution at all.
Two submissions identical except for declared languages "pt-PT" and
"pt-BR" produce identical stored offers and identical accept-path
behavior (the same single built-in template), so "pt-PT" does not
resolve to a Portuguese-Portugal template set distinct from the base
default used for "pt-BR". -/
theorem language_resolution_counterexample :
    mkRow 1000 1 { exInput with lang := "pt-PT" } =
      mkRow 1000 1 { exInput with lang := "pt-BR" } ∧
    (statusHandler exPlatform none 0 "SFX" true true exStore 1
        (some "accepted")).2.2.2 =
      [(EmailMsg.accept "a@b.co" "T" "GBP" "50.00" "CODE77"
          (some 604800000) "shop.com" (some 999), true)] ∧
    (statusHandler exPlatform none 0 "SFX" true true exStore 1
        (some "declined")).2.2.2 =
      [(EmailMsg.decline "a@b.co" "T", true)] := by
  refine ⟨by decide, by decide, by decide⟩

/-- C8 amended: the notification path resolves no language: the
declared language of a submission is dropped at intake (the stored row
has no language column) and every notification uses the single built-in
template, so any two declared languages — in particular "pt-BR" and
"pt-PT" — receive identical treatment. -/
theorem language_never_resolved :
    (∀ (now nid : Nat) (i : OfferInput) (l1 l2 : String),
      mkRow now nid { i with lang := l1 } = mkRow now nid { i with lang := l2 }) ∧
    (∀ (allow : List String) (now : Nat) (store : Store) (i : OfferInput)
       (l1 l2 : String),
      submitOffer allow now store { i with lang := l1 } =
        submitOffer allow now store { i with lang := l2 }) := by
  constructor
  · intro now nid i l1 l2
    cases i
    rfl
  · intro allow now store i l1 l2
    cases i
    rfl

theorem any_false_forall {α : Type} {p : α → Bool} {l : List α}
    (h : l.any p = false) : ∀ x ∈ l, p x = false := by
  intro x hx
  by_contra hb
  have hpx : p x = true := by revert hb; cases p x <;> simp
  have : l.any p = true := List.any_eq_true.mpr ⟨x, hx, hpx⟩
  rw [h] at this
  exact Bool.false_ne_true this

theorem forall_any_false {α : Type} {p : α → Bool} {l : List α}
    (h : ∀ x ∈ l, p x = false) : l.any p = false := by
  cases hl : l.any p
  · rfl
  · obtain ⟨x, hx, hpx⟩ := List.any_eq_true.mp hl
    rw [h x hx] at hpx
    exact absurd hpx (by simp)

theorem submitOffer_valid (allow : List String) (now : Nat) (store : Store)
    (i : OfferInput)
    (horig : allow = [] ∨ i.origin ∈ allow)
    (hmail : emailOk (trimStr i.email) = true)
    (hpid : i.product_id ≠ "") (hvid : i.variant_id ≠ "")
    (hcents : jsOfferCentsOpt i.offer ≠ 0) :
    submitOffer allow now store i =
      if store.offers.any (dupMatch now (lowerStr (trimStr i.email)) i.variant_id)
      then (.duplicate, store)
      else (.created store.nextId,
            ⟨store.offers ++ [mkRow now store.nextId i], store.nextId + 1⟩) := by
  unfold submitOffer
  rw [if_neg (by rcases horig with h | h <;> simp [h])]
  dsimp only
  rw [if_neg (not_not_intro hmail)]
  rw [if_neg (by simp [hpid, hvid])]
  rw [if_neg hcents]

/-- C3: two submissions with the same normalized email and variant id.
The first (passing validation, with no previous matching open offer)
succeeds and inserts a new open offer.  While that offer is open and the
second submission arrives within the store-side 24-hour window, the
second is rejected as a duplicate (the rate-limit-style branch, not a
server error) with the store unchanged.  If instead the first offer has
been moved to any non-open status, or the second arrives strictly after
24 hours (and no other matching open offer exists), the second
submission succeeds. -/
theorem dedupe_window (allow : List String) (t1 t2 : Nat) (store : Store)
    (i1 i2 : OfferInput)
    (h1orig : allow = [] ∨ i1.origin ∈ allow)
    (h1mail : emailOk (trimStr i1.email) = true)
    (h1pid : i1.product_id ≠ "") (h1vid : i1.variant_id ≠ "")
    (h1cents : jsOfferCentsOpt i1.offer ≠ 0)
    (h1nodup : store.offers.any
      (dupMatch t1 (lowerStr (trimStr i1.email)) i1.variant_id) = false)
    (hsame : lowerStr (trimStr i2.email) = lowerStr (trimStr i1.email))
    (hvar : i2.variant_id = i1.variant_id)
    (h2orig : allow = [] ∨ i2.origin ∈ allow)
    (h2mail : emailOk (trimStr i2.email) = true)
    (h2pid : i2.product_id ≠ "") (h2vid : i2.variant_id ≠ "")
    (h2cents : jsOfferCentsOpt i2.offer ≠ 0) :
    submitOffer allow t1 store i1 =
      (.created store.nextId,
       ⟨store.offers ++ [mkRow t1 store.nextId i1], store.nextId + 1⟩) ∧
    (t2 ≤ t1 + 86400 →
      submitOffer allow t2
          ⟨store.offers ++ [mkRow t1 store.nextId i1], store.nextId + 1⟩ i2 =
        (.duplicate,
         ⟨store.offers ++ [mkRow t1 store.nextId i1], store.nextId + 1⟩)) ∧
    (∀ s, s ≠ "open" →
      store.offers.any
        (dupMatch t2 (lowerStr (trimStr i2.email)) i2.variant_id) = false →
      (submitOffer allow t2
          (updateStatusIn
            ⟨store.offers ++ [mkRow t1 store.nextId i1], store.nextId + 1⟩
            store.nextId s) i2).1 = .created (store.nextId + 1)) ∧
    (t1 + 86400 < t2 →
      store.offers.any
        (dupMatch t2 (lowerStr (trimStr i2.email)) i2.variant_id) = false →
      (submitOffer allow t2
          ⟨store.offers ++ [mkRow t1 store.nextId i1], store.nextId + 1⟩ i2).1 =
        .created (store.nextId + 1)) := by
  refine ⟨?_, ?_, ?_, ?_⟩
  · rw [submitOffer_valid allow t1 store i1 h1orig h1mail h1pid h1vid h1cents]
    rw [if_neg (by simp [h1nodup])]
  · intro ht2
    rw [submitOffer_valid allow t2 _ i2 h2orig h2mail h2pid h2vid h2cents]
    have hcond : ((store.offers ++ [mkRow t1 store.nextId i1]).any
        (dupMatch t2 (lowerStr (trimStr i2.email)) i2.variant_id)) = true := by
      simp only [List.any_append, List.any_cons, List.any_nil, Bool.or_eq_true]
      refine Or.inr (Or.inl ?_)
      simp only [dupMatch, decide_eq_true_eq]
      exact ⟨hsame.symm, hvar.symm, rfl, ht2⟩
    rw [if_pos hcond]
  · intro s hs hnodup2
    rw [submitOffer_valid allow t2 _ i2 h2orig h2mail h2pid h2vid h2cents]
    have hcond : ((updateStatusIn
        ⟨store.offers ++ [mkRow t1 store.nextId i1], store.nextId + 1⟩
        store.nextId s).offers.any
          (dupMatch t2 (lowerStr (trimStr i2.email)) i2.variant_id)) = false := by
      simp only [updateStatusIn, List.any_map]
      apply forall_any_false
      intro o ho
      rw [Function.comp_apply]
      rcases List.mem_append.mp ho with hmem | hmem
      · by_cases hid : o.id = store.nextId
        · rw [if_pos hid]
          simp only [dupMatch, decide_eq_false_iff_not]
          rintro ⟨-, -, hstat, -⟩
          exact hs hstat
        · rw [if_neg hid]
          exact any_false_forall hnodup2 o hmem
      · simp only [List.mem_singleton] at hmem
        subst hmem
        rw [if_pos (show (mkRow t1 store.nextId i1).id = store.nextId from rfl)]
        simp only [dupMatch, decide_eq_false_iff_not]
        rintro ⟨-, -, hstat, -⟩
        exact hs hstat
    rw [if_neg (by simp [hcond])]
    rfl
  · intro ht2 hnodup2
    rw [submitOffer_valid allow t2 _ i2 h2orig h2mail h2pid h2vid h2cents]
    have hcond : ((store.offers ++ [mkRow t1 store.nextId i1]).any
        (dupMatch t2 (lowerStr (trimStr i2.email)) i2.variant_id)) = false := by
      apply forall_any_false
      intro o ho
      rcases List.mem_append.mp ho with hmem | hmem
      · exact any_false_forall hnodup2 o hmem
      · simp only [List.mem_singleton] at hmem
        subst hmem
        simp only [dupMatch, decide_eq_false_iff_not]
        rintro ⟨-, -, -, hwin⟩
        have hca : (mkRow t1 store.nextId i1).created_at = t1 := rfl
        rw [hca] at hwin
        omega
    rw [if_neg (by simp [hcond])]

/-- Witness for C3: `a@b.co` offers on variant 999; the second
submission (email `A@B.Co`, same normalized key) is rejected inside the
24-hour window, succeeds after the first is accepted, and succeeds
beyond the window. -/
theorem dedupe_window_witness :
    submitOffer [] 1000 ⟨[], 1⟩ exInput =
      (.created 1, ⟨[] ++ [mkRow 1000 1 exInput], 2⟩) ∧
    submitOffer [] 2000 ⟨[] ++ [mkRow 1000 1 exInput], 2⟩
        { exInput with email := "A@B.Co" } =
      (.duplicate, ⟨[] ++ [mkRow 1000 1 exInput], 2⟩) ∧
    (submitOffer [] 2000
        (updateStatusIn ⟨[] ++ [mkRow 1000 1 exInput], 2⟩ 1 "accepted")
        { exInput with email := "A@B.Co" }).1 = .created 2 ∧
    (submitOffer [] 90000 ⟨[] ++ [mkRow 1000 1 exInput], 2⟩
        { exInput with email := "A@B.Co" }).1 = .created 2 := by
  have h1 := dedupe_window [] 1000 2000 ⟨[], 1⟩ exInput
    { exInput with email := "A@B.Co" }
    (Or.inl rfl) (by decide) (by decide) (by decide) (by decide) (by decide)
    (by decide) (by decide) (Or.inl rfl) (by decide) (by decide) (by decide)
    (by decide)
  have h2 := dedupe_window [] 1000 90000 ⟨[], 1⟩ exInput
    { exInput with email := "A@B.Co" }
    (Or.inl rfl) (by decide) (by decide) (by decide) (by decide) (by decide)
    (by decide) (by decide) (Or.inl rfl) (by decide) (by decide) (by decide)
    (by decide)
  exact ⟨h1.1, h1.2.1 (by omega), h1.2.2.1 "accepted" (by decide) (by decide),
         h2.2.2.2 (by omega) (by decide)⟩

theorem createDraft_success (mm : List MarketEntry) (dp : DraftPlatform)
    (now : Nat) (store : Store) (em sd : String) (r0 : Offer)
    (rtl : List Offer) (g : String)
    (hrows : bundleRows store em sd = r0 :: rtl)
    (hbuilt : (buildLineItems (resolveMarketForHost mm sd).1 (r0 :: rtl)).1 ≠ [])
    (hdc : dp.draftCreate = some g) (hg : g ≠ "") :
    createDraftForEmailAndShop mm dp now store em sd =
      (.ok { draftId := g,
             count := (buildLineItems (resolveMarketForHost mm sd).1
               (r0 :: rtl)).2.length,
             email := r0.email,
             presentmentCurrency := (resolveMarketForHost mm sd).1 },
       { store with offers := store.offers.map (fun o =>
           if o.id ∈ (buildLineItems (resolveMarketForHost mm sd).1
               (r0 :: rtl)).2 then
             { o with draft_order_id := some g, drafted_at := some now }
           else o) },
       some { email := r0.email,
              lineItems := (buildLineItems (resolveMarketForHost mm sd).1
                (r0 :: rtl)).1,
              presentmentCurrencyCode := (resolveMarketForHost mm sd).1,
              note := "Offers: " ++ String.intercalate ", "
                  ((buildLineItems (resolveMarketForHost mm sd).1
                    (r0 :: rtl)).2.map toString) ++
                " (market " ++ (resolveMarketForHost mm sd).2 ++ "/" ++
                (resolveMarketForHost mm sd).1 ++ ")",
              tags := ["make-offer"] }) := by
  unfold createDraftForEmailAndShop
  rw [hrows]
  dsimp only
  rw [if_neg hbuilt, hdc]
  dsimp only
  rw [if_neg hg]

theorem createDraft_ok_inv (mm : List MarketEntry) (dp : DraftPlatform)
    (now : Nat) (store : Store) (em sd : String) (res : BundleResult)
    (st2 : Store) (req : Option DraftReq)
    (h : createDraftForEmailAndShop mm dp now store em sd = (.ok res, st2, req)) :
    ∃ g, dp.draftCreate = some g ∧ g ≠ "" ∧ res.draftId = g ∧
      st2 = { store with offers := store.offers.map (fun o =>
        if o.id ∈ (buildLineItems (resolveMarketForHost mm sd).1
            (bundleRows store em sd)).2 then
          { o with draft_order_id := some g, drafted_at := some now }
        else o) } := by
  unfold createDraftForEmailAndShop at h
  rcases hrows : bundleRows store em sd with _ | ⟨r0, rtl⟩
  · rw [hrows] at h
    simp at h
  · rw [hrows] at h
    dsimp only at h
    by_cases hb : (buildLineItems (resolveMarketForHost mm sd).1 (r0 :: rtl)).1 = []
    · rw [if_pos hb] at h
      simp at h
    · rw [if_neg hb] at h
      rcases hdc : dp.draftCreate with _ | g
      · rw [hdc] at h
        simp at h
      · rw [hdc] at h
        dsimp only at h
        by_cases hg : g = ""
        · rw [if_pos hg] at h
          simp at h
        · rw [if_neg hg] at h
          simp only [Prod.mk.injEq, Except.ok.injEq] at h
          obtain ⟨h1, h2, h3⟩ := h
          refine ⟨g, rfl, hg, by rw [← h1], by rw [← h2]⟩

/-- C5 counterexample: the claim's "so a second bundler run with no new
accepted offers in between finds no eligible rows and fails with
NothingToBundle" is false when the first run skipped an offer for an
unresolvable variant id: on a store with one resolvable and one
unresolvable accepted offer the first run succeeds (bundling only the
resolvable one), and the second run still finds the skipped offer
eligible and fails with NoValidLineItems, not NothingToBundle. -/
theorem bundling_second_run_counterexample :
    (createDraftForEmailAndShop [] exDraftPlatform 99 bStore
        "a@b.co" "shop.com").1 =
      .ok { draftId := "gid://shopify/DraftOrder/5", count := 1,
            email := "a@b.co", presentmentCurrency := "GBP" } ∧
    (createDraftForEmailAndShop [] exDraftPlatform 99
        (createDraftForEmailAndShop [] exDraftPlatform 99 bStore
          "a@b.co" "shop.com").2.1
        "a@b.co" "shop.com").1 = .error .noValidLineItems ∧
    BundleError.noValidLineItems ≠ BundleError.nothingToBundle := by
  refine ⟨by decide, by decide, by decide⟩

/-- C5 amended: the bundler's initial query indeed selects only
accepted offers with an empty draft-order id, and a successful run
marks every bundled offer, so a second run with no new accepted offers
in between fails with NothingToBundle provided the first run skipped no
eligible offer (every eligible offer had a resolvable variant id) —
offers skipped for unresolvable variant ids remain eligible, and a
second run then fails with NoValidLineItems instead. -/
theorem bundling_idempotent (mm mm2 : List MarketEntry) (dp dp2 : DraftPlatform)
    (now now2 : Nat) (store : Store) (em sd : String) (res : BundleResult)
    (st2 : Store) (req : Option DraftReq)
    (h : createDraftForEmailAndShop mm dp now store em sd = (.ok res, st2, req))
    (hall : ∀ r ∈ bundleRows store em sd, truthyVar r = true) :
    (∀ r ∈ bundleRows store em sd, r.status = "accepted" ∧
      (r.draft_order_id = none ∨ r.draft_order_id = some "")) ∧
    createDraftForEmailAndShop mm2 dp2 now2 st2 em sd =
      (.error .nothingToBundle, st2, none) := by
  constructor
  · intro r hr
    have helig := (mem_bundleRows.mp hr).2
    simp only [eligibleFor, decide_eq_true_eq] at helig
    exact ⟨helig.2.2.1, helig.2.2.2⟩
  · obtain ⟨g, hdc, hg, hdid, hst⟩ :=
      createDraft_ok_inv mm dp now store em sd res st2 req h
    have hids : (buildLineItems (resolveMarketForHost mm sd).1
        (bundleRows store em sd)).2 =
        (bundleRows store em sd).map (fun r => r.id) := by
      rw [buildLineItems_eq_filter, List.filter_eq_self.mpr hall]
    have hempty : bundleRows st2 em sd = [] := by
      have hfil : st2.offers.filter (eligibleFor em sd) = [] := by
        rw [hst]
        apply List.filter_eq_nil_iff.mpr
        intro a ha
        obtain ⟨o, ho, rfl⟩ := List.mem_map.mp ha
        by_cases hid : o.id ∈ (buildLineItems (resolveMarketForHost mm sd).1
            (bundleRows store em sd)).2
        · rw [if_pos hid]
          simp [eligibleFor, hg]
        · rw [if_neg hid]
          intro helig
          apply hid
          rw [hids]
          exact List.mem_map_of_mem (fun r => r.id)
            (mem_bundleRows.mpr ⟨ho, helig⟩)
      unfold bundleRows
      rw [hfil]
      rfl
    unfold createDraftForEmailAndShop
    rw [hempty]

/-- Witness for C5: two resolvable accepted offers are bundled, every
bundled offer is marked, and the second run yields NothingToBundle. -/
theorem bundling_idempotent_witness :
    (∀ r ∈ bundleRows dStore "a@b.co" "shop.com", r.status = "accepted" ∧
      (r.draft_order_id = none ∨ r.draft_order_id = some "")) ∧
    createDraftForEmailAndShop [] exDraftPlatform 99 dStoreMarked
        "a@b.co" "shop.com" =
      (.error .nothingToBundle, dStoreMarked, none) :=
  bundling_idempotent [] [] exDraftPlatform exDraftPlatform 99 99 dStore
    "a@b.co" "shop.com" dRes0 dStoreMarked (some dReq0)
    (by decide) (by decide)

/-- C6: partial-skip bundling.  First part: when the eligible rows are
three offers of which exactly one fails variant resolution, a
successful run creates a draft whose request carries exactly the two
line items of the resolvable offers (each built by `mkLineItem`:
quantity 1, price override = that offer's offered amount, the offer id
as custom attribute), reports count 2, marks exactly the two resolvable
offers' ids, and leaves every unresolvable offer of the store unchanged
(given unique ids).  Second part: when every eligible row is
unresolvable, the run fails with NoValidLineItems, the store unchanged
and no draft request sent. -/
theorem partial_skip_bundling :
    (∀ (mm : List MarketEntry) (dp : DraftPlatform) (now : Nat)
       (store : Store) (em sd : String) (o1 o2 o3 : Offer) (g : String),
      bundleRows store em sd = [o1, o2, o3] →
      ((truthyVar o1 = false ∧ truthyVar o2 = true ∧ truthyVar o3 = true) ∨
       (truthyVar o1 = true ∧ truthyVar o2 = false ∧ truthyVar o3 = true) ∨
       (truthyVar o1 = true ∧ truthyVar o2 = true ∧ truthyVar o3 = false)) →
      dp.draftCreate = some g → g ≠ "" →
      (createDraftForEmailAndShop mm dp now store em sd).1 =
        .ok { draftId := g, count := 2, email := o1.email,
              presentmentCurrency := (resolveMarketForHost mm sd).1 } ∧
      (∃ req, (createDraftForEmailAndShop mm dp now store em sd).2.2 =
          some req ∧
        req.lineItems = ([o1, o2, o3].filter truthyVar).map
          (mkLineItem (resolveMarketForHost mm sd).1) ∧
        req.lineItems.length = 2) ∧
      (createDraftForEmailAndShop mm dp now store em sd).2.1.offers =
        store.offers.map (fun o =>
          if o.id ∈ ([o1, o2, o3].filter truthyVar).map (fun r => r.id) then
            { o with draft_order_id := some g, drafted_at := some now }
          else o) ∧
      (∀ o ∈ store.offers, truthyVar o = false →
        (store.offers.map (fun r => r.id)).Nodup →
        o ∈ (createDraftForEmailAndShop mm dp now store em sd).2.1.offers)) ∧
    (∀ (mm : List MarketEntry) (dp : DraftPlatform) (now : Nat)
       (store : Store) (em sd : String),
      bundleRows store em sd ≠ [] →
      (∀ r ∈ bundleRows store em sd, truthyVar r = false) →
      createDraftForEmailAndShop mm dp now store em sd =
        (.error .noValidLineItems, store, none)) := by
  constructor
  · intro mm dp now store em sd o1 o2 o3 g hrows hone hdc hg
    have hfl : ([o1, o2, o3].filter truthyVar).length = 2 := by
      rcases hone with ⟨h1, h2, h3⟩ | ⟨h1, h2, h3⟩ | ⟨h1, h2, h3⟩ <;>
        simp [List.filter, h1, h2, h3]
    have hbuilt := buildLineItems_eq_filter (resolveMarketForHost mm sd).1
      [o1, o2, o3]
    have hbne : (buildLineItems (resolveMarketForHost mm sd).1
        [o1, o2, o3]).1 ≠ [] := by
      rw [hbuilt]
      intro hnil
      have := congrArg List.length hnil
      simp [hfl] at this
    have hsucc := createDraft_success mm dp now store em sd o1 [o2, o3] g
      hrows hbne hdc hg
    have hids : (buildLineItems (resolveMarketForHost mm sd).1
        [o1, o2, o3]).2 = ([o1, o2, o3].filter truthyVar).map (fun r => r.id) := by
      rw [hbuilt]
    refine ⟨?_, ?_, ?_, ?_⟩
    · rw [hsucc]
      simp only [hids]
      simp [hfl]
    · refine ⟨_, by rw [hsucc], ?_, ?_⟩
      · dsimp only
        rw [hbuilt]
      · dsimp only
        rw [hbuilt]
        simp [hfl]
    · rw [hsucc]
      dsimp only
      rw [hids]
    · intro o ho huf hnodup
      rw [hsucc]
      dsimp only
      have hnotin : ¬ o.id ∈ (buildLineItems (resolveMarketForHost mm sd).1
          [o1, o2, o3]).2 := by
        rw [hids]
        intro hin
        obtain ⟨r, hrf, hrid⟩ := List.mem_map.mp hin
        have hrmem : r ∈ bundleRows store em sd := by
          rw [hrows]
          exact List.mem_of_mem_filter hrf
        have hrstore : r ∈ store.offers := (mem_bundleRows.mp hrmem).1
        have : r = o := List.inj_on_of_nodup_map hnodup hrstore ho hrid
        rw [this] at hrf
        have := List.of_mem_filter hrf
        rw [huf] at this
        exact Bool.false_ne_true this
      refine List.mem_map.mpr ⟨o, ho, ?_⟩
      rw [if_neg hnotin]
  · intro mm dp now store em sd hne hall
    rcases hrows : bundleRows store em sd with _ | ⟨r0, rtl⟩
    · exact absurd hrows hne
    · have hb : (buildLineItems (resolveMarketForHost mm sd).1 (r0 :: rtl)).1 = [] := by
        rw [buildLineItems_eq_filter]
        have : (r0 :: rtl).filter truthyVar = [] := by
          apply List.filter_eq_nil_iff.mpr
          intro a ha
          rw [hall a (by rw [hrows]; exact ha)]
          simp
        rw [this]
        rfl
      unfold createDraftForEmailAndShop
      rw [hrows]
      dsimp only
      rw [if_pos hb]

/-- Witness for C6: three accepted offers (variants 999, 777 and one
digit-free) produce a 2-item draft marking offers 1 and 2 and leaving
offer 3 untouched; a store whose only eligible offer is unresolvable
yields NoValidLineItems. -/
theorem partial_skip_bundling_witness :
    (createDraftForEmailAndShop [] exDraftPlatform 99 cStore
        "a@b.co" "shop.com").1 =
      .ok { draftId := "gid://shopify/DraftOrder/5", count := 2,
            email := cOffer1.email,
            presentmentCurrency := (resolveMarketForHost [] "shop.com").1 } ∧
    (∃ req, (createDraftForEmailAndShop [] exDraftPlatform 99 cStore
        "a@b.co" "shop.com").2.2 = some req ∧
      req.lineItems = ([cOffer1, cOffer2, cOffer3].filter truthyVar).map
        (mkLineItem (resolveMarketForHost [] "shop.com").1) ∧
      req.lineItems.length = 2) ∧
    (createDraftForEmailAndShop [] exDraftPlatform 99 cStore
        "a@b.co" "shop.com").2.1.offers =
      cStore.offers.map (fun o =>
        if o.id ∈ ([cOffer1, cOffer2, cOffer3].filter truthyVar).map
            (fun r => r.id) then
          { o with draft_order_id := some "gid://shopify/DraftOrder/5",
                   drafted_at := some 99 }
        else o) ∧
    (∀ o ∈ cStore.offers, truthyVar o = false →
      (cStore.offers.map (fun r => r.id)).Nodup →
      o ∈ (createDraftForEmailAndShop [] exDraftPlatform 99 cStore
        "a@b.co" "shop.com").2.1.offers) ∧
    createDraftForEmailAndShop [] exDraftPlatform 99 cStoreBad
        "a@b.co" "shop.com" =
      (.error .noValidLineItems, cStoreBad, none) := by
  have h1 := partial_skip_bundling.1 [] exDraftPlatform 99 cStore
    "a@b.co" "shop.com" cOffer1 cOffer2 cOffer3 "gid://shopify/DraftOrder/5"
    (by decide) (by decide) (by decide) (by decide)
  have h2 := partial_skip_bundling.2 [] exDraftPlatform 99 cStoreBad
    "a@b.co" "shop.com" (by decide) (by decide)
  exact ⟨h1.1, h1.2.1, h1.2.2.1, h1.2.2.2, h2⟩

end MakeOffer
